import Mathlib

/-
Verification of the Job Queue and GPU Fleet Orchestrator of eyaltsm/AIPROJECT.

The embedding models the jobs table (alembic migration f3a80389152c) as a list
of job rows, and each worker-facing endpoint of backend/app/routers/workers.py
and each method of backend/app/services/job_orchestration.py as an explicit
state-passing function from a database state to a response paired with the new
database state.  Each HTTP transaction and each raw-SQL statement commits
atomically, so one invocation is one function application.

Times are naturals (seconds since an arbitrary epoch); SQL NULL columns are
Options.  The Job ORM model file (app/models/job.py) is absent from the source
tree, so column types follow the alembic migration and the pydantic schemas
(app/schemas/job.py): the jobs table has columns id, user_id, kind,
payload_json, status, result_json, error_message, priority, reserved_by,
reserved_at, retries, created_at, updated_at, started_at, completed_at, and
in particular NO target column, hence in the routers the expression
hasattr(Job, "target") is False and the target filter of claim_job and
claim_dryrun reduces to a no-op.
-/

namespace AIProject

/-- Job status enumeration: queued, running, completed, failed, cancelled. -/
inductive JobStatus where
  | queued
  | running
  | completed
  | failed
  | cancelled
deriving DecidableEq, Repr

/-- One row of the jobs table (columns per migration f3a80389152c). -/
structure Job where
  id : Nat
  user_id : Nat
  kind : String
  payload_json : String
  status : JobStatus
  result_json : Option String
  error_message : Option String
  priority : Int
  reserved_by : Option String
  reserved_at : Option Nat
  retries : Nat
  created_at : Nat
  updated_at : Nat
  started_at : Option Nat
  completed_at : Option Nat
deriving DecidableEq, Repr

/-- The eligibility filter of claim_job and claim_dryrun
(routers/workers.py lines 27-28 and 101-102): status = queued.  The target
filter clause evaluates to True because the jobs schema has no target column
(see the header comment), so it contributes nothing. -/
def eligible (j : Job) : Bool :=
  j.status == JobStatus.queued

/-- Strict ordering used by ORDER BY priority DESC, created_at ASC
(routers/workers.py line 29): a sorts strictly before b. -/
def better (a b : Job) : Bool :=
  decide (b.priority < a.priority ∨ (a.priority = b.priority ∧ a.created_at < b.created_at))

/-- The row returned by .first() under ORDER BY priority DESC, created_at ASC:
the earliest listed row that no other row sorts strictly before. -/
def selectBest : List Job → Option Job
  | [] => none
  | j :: rest =>
    match selectBest rest with
    | none => some j
    | some b => if better b j then some b else some j

/-- Committing the mutation of the ORM row with primary key jid
(the id column is the primary key, so it identifies the row). -/
def updateById (db : List Job) (jid : Nat) (j : Job) : List Job :=
  db.map (fun x => if x.id == jid then j else x)

/-- db.query(Job).get(job_id): primary-key lookup. -/
def findById (db : List Job) (jid : Nat) : Option Job :=
  db.find? (fun x => x.id == jid)

/-- Outcome of a worker-endpoint call: 200 body, 204 no content,
404 not found, 403 forbidden. -/
inductive WorkerApiResult (α : Type) where
  | ok (a : α)
  | noContent
  | notFound
  | forbidden
deriving DecidableEq, Repr

/-- POST /workers/claim (routers/workers.py lines 15-44): select the best
queued row FOR UPDATE SKIP LOCKED, mark it running, set reserved_by,
reserved_at, started_at, and commit; 204 when no row is eligible.  The select
and the update commit in one transaction, hence one atomic step here.  The
updated_at refresh on reservation follows the service-layer claim SQL
(job_orchestration.py lines 22-38), which sets updated_at = now in the same
UPDATE. -/
def claim_job (db : List Job) (worker_id : String) (now : Nat) :
    Option Job × List Job :=
  match selectBest (db.filter eligible) with
  | none => (none, db)
  | some j =>
    let j' : Job :=
      { j with
        status := JobStatus.running
        reserved_by := some worker_id
        reserved_at := some now
        started_at := some now
        updated_at := now }
    (some j', updateById db j.id j')

/-- POST /workers/jobs/(job_id)/done (routers/workers.py lines 47-66):
404 when the job is missing, 403 when reserved_by differs from the calling
worker, otherwise set status completed, result_json, clear error_message,
set completed_at, commit. -/
def mark_done (db : List Job) (job_id : Nat) (worker_id : String)
    (result_json : String) (now : Nat) : WorkerApiResult Unit × List Job :=
  match findById db job_id with
  | none => (WorkerApiResult.notFound, db)
  | some j =>
    if j.reserved_by == some worker_id then
      let j' : Job :=
        { j with
          status := JobStatus.completed
          result_json := some result_json
          error_message := none
          completed_at := some now }
      (WorkerApiResult.ok (), updateById db job_id j')
    else (WorkerApiResult.forbidden, db)

/-- POST /workers/jobs/(job_id)/fail (routers/workers.py lines 69-88):
404 when the job is missing, 403 when reserved_by differs from the calling
worker, otherwise set status failed, error_message, completed_at, increment
retries, commit. -/
def mark_fail (db : List Job) (job_id : Nat) (worker_id : String)
    (error_message : String) (now : Nat) : WorkerApiResult Unit × List Job :=
  match findById db job_id with
  | none => (WorkerApiResult.notFound, db)
  | some j =>
    if j.reserved_by == some worker_id then
      let j' : Job :=
        { j with
          status := JobStatus.failed
          error_message := some error_message
          completed_at := some now
          retries := j.retries + 1 }
      (WorkerApiResult.ok (), updateById db job_id j')
    else (WorkerApiResult.forbidden, db)

/-- POST /workers/jobs/(job_id)/heartbeat (routers/workers.py lines 112-127):
404 when the job is missing, 403 when reserved_by differs from the calling
worker, otherwise set updated_at to now and commit. -/
def job_heartbeat (db : List Job) (job_id : Nat) (worker_id : String)
    (now : Nat) : WorkerApiResult Unit × List Job :=
  match findById db job_id with
  | none => (WorkerApiResult.notFound, db)
  | some j =>
    if j.reserved_by == some worker_id then
      (WorkerApiResult.ok (), updateById db job_id { j with updated_at := now })
    else (WorkerApiResult.forbidden, db)

/-- POST /workers/claim-dryrun (routers/workers.py lines 91-109): run the same
filtered and ordered query as claim without FOR UPDATE, report the id of the
first row when one exists, 204 otherwise; nothing is written. -/
def claim_dryrun (db : List Job) : Option Nat × List Job :=
  match selectBest (db.filter eligible) with
  | some j => (some j.id, db)
  | none => (none, db)

/-- JobOrchestrationService._is_valid_status_transition
(job_orchestration.py lines 143-153). -/
def valid_transition (current new : JobStatus) : Bool :=
  match current with
  | JobStatus.queued => new == JobStatus.running || new == JobStatus.cancelled
  | JobStatus.running =>
      new == JobStatus.completed || new == JobStatus.failed || new == JobStatus.cancelled
  | JobStatus.completed => false
  | JobStatus.failed => new == JobStatus.queued
  | JobStatus.cancelled => false

/-- The mutation body of JobOrchestrationService.update_job_status
(job_orchestration.py lines 102-125): set the new status and updated_at;
completed stamps completed_at and stores the result when one is given; failed
stamps completed_at, stores the error when one is given, increments retries,
then keeps status failed when retries have reached 3 and otherwise resets the
job to queued clearing the reservation. -/
def applyTransition (j : Job) (st : JobStatus) (result_data : Option String)
    (error_message : Option String) (now : Nat) : Job :=
  let j1 : Job := { j with status := st, updated_at := now }
  if st == JobStatus.completed then
    { j1 with
      completed_at := some now
      result_json :=
        match result_data with
        | some r => some r
        | none => j1.result_json }
  else if st == JobStatus.failed then
    let jf : Job :=
      { j1 with
        completed_at := some now
        error_message :=
          match error_message with
          | some e => some e
          | none => j1.error_message
        retries := j1.retries + 1 }
    if 3 ≤ jf.retries then { jf with status := JobStatus.failed }
    else
      { jf with
        status := JobStatus.queued
        reserved_by := none
        reserved_at := none }
  else j1

/-- JobOrchestrationService.update_job_status (job_orchestration.py lines
67-141): reject (returning False, no commit) when the job is missing, when
reserved_by differs from the worker, or when the transition is invalid;
otherwise commit the transition body above on the row and return True. -/
def update_job_status (db : List Job) (job_id : Nat) (st : JobStatus)
    (worker_id : String) (result_data : Option String)
    (error_message : Option String) (now : Nat) : Bool × List Job :=
  match findById db job_id with
  | none => (false, db)
  | some j =>
    if j.reserved_by == some worker_id then
      if valid_transition j.status st then
        (true, updateById db job_id (applyTransition j st result_data error_message now))
      else (false, db)
    else (false, db)

/-- The filter of requeue_stuck_jobs (job_orchestration.py lines 161-164):
status = running AND reserved_at < timeout_threshold.  A NULL reserved_at
compares as unknown in SQL and the row is not selected. -/
def isStuck (threshold : Nat) (j : Job) : Bool :=
  j.status == JobStatus.running &&
    match j.reserved_at with
    | some t => decide (t < threshold)
    | none => false

/-- The per-row recovery of requeue_stuck_jobs (job_orchestration.py lines
167-179): requeue, clear the reservation, increment retries, touch updated_at;
then, when retries have reached 3, mark the job failed with completed_at and
the timeout error message. -/
def recoverJob (now : Nat) (j : Job) : Job :=
  let j1 : Job :=
    { j with
      status := JobStatus.queued
      reserved_by := none
      reserved_at := none
      retries := j.retries + 1
      updated_at := now }
  if 3 ≤ j1.retries then
    { j1 with
      status := JobStatus.failed
      completed_at := some now
      error_message := some "Job timed out after multiple retries" }
  else j1

/-- JobOrchestrationService.requeue_stuck_jobs (job_orchestration.py lines
155-192): recover every stuck row, commit once, return the count.  The
threshold argument stands for utcnow minus the timeout. -/
def requeue_stuck_jobs (db : List Job) (threshold : Nat) (now : Nat) :
    Nat × List Job :=
  ((db.filter (isStuck threshold)).length,
   db.map (fun j => if isStuck threshold j then recoverJob now j else j))

/-- One invocation of a core job-store operation with its arguments. -/
inductive CoreOp where
  | claim (worker_id : String) (now : Nat)
  | done (job_id : Nat) (worker_id : String) (result_json : String) (now : Nat)
  | fail (job_id : Nat) (worker_id : String) (error_message : String) (now : Nat)
  | heartbeat (job_id : Nat) (worker_id : String) (now : Nat)
  | dryrun
  | updateStatus (job_id : Nat) (st : JobStatus) (worker_id : String)
      (result_data : Option String) (error_message : Option String) (now : Nat)
  | sweep (threshold : Nat) (now : Nat)

/-- The effect of one core operation on the job store. -/
def applyOp : CoreOp → List Job → List Job
  | CoreOp.claim w now, db => (claim_job db w now).2
  | CoreOp.done jid w r now, db => (mark_done db jid w r now).2
  | CoreOp.fail jid w e now, db => (mark_fail db jid w e now).2
  | CoreOp.heartbeat jid w now, db => (job_heartbeat db jid w now).2
  | CoreOp.dryrun, db => (claim_dryrun db).2
  | CoreOp.updateStatus jid st w r e now, db =>
      (update_job_status db jid st w r e now).2
  | CoreOp.sweep threshold now, db => (requeue_stuck_jobs db threshold now).2

/-- A worker report operation (the done and fail endpoints). -/
def CoreOp.isWorkerReport : CoreOp → Bool
  | CoreOp.done .. => true
  | CoreOp.fail .. => true
  | _ => false

/-
Fleet Controller (backend/app/services/vast_service.py).  Fleet State is the
Redis value under key vast:active_instance_id, modelled as an Option String.
Each function takes the outcome of the provider HTTP call it performs as an
explicit argument: a response with a status code and the relevant body field,
or a network-level exception.
-/

/-- Outcome of one provider HTTP call: a response carrying the status code and
the body field the code reads, or an exception raised during the request. -/
inductive HttpResult (α : Type) where
  | response (code : Nat) (body : α)
  | netError
deriving DecidableEq, Repr

/-- ASCII lowercasing of one character, as str.lower() acts on the ASCII
state strings the provider returns. -/
def lowerChar (c : Char) : Char :=
  if c.isUpper then Char.ofNat (c.toNat + 32) else c

/-- The first list is a prefix of the second. -/
def hasPrefixL : List Char → List Char → Bool
  | [], _ => true
  | _ :: _, [] => false
  | a :: ps, b :: bs => a == b && hasPrefixL ps bs

/-- Python substring test over character lists: the pattern occurs somewhere
in the list. -/
def containsL (p : List Char) : List Char → Bool
  | [] => hasPrefixL p []
  | b :: bs => hasPrefixL p (b :: bs) || containsL p bs

/-- _is_instance_running (vast_service.py lines 50-62): False on a non-200
response and False on any exception; on a 200 response, True exactly when the
lowercased state field contains "run".  The body argument is the state field
of the response. -/
def is_instance_running : HttpResult String → Bool
  | HttpResult.netError => false
  | HttpResult.response code body =>
      code == 200 && containsL "run".data (body.data.map lowerChar)

/-- Python str() applied to an optional id field: str(None) is the string
"None". -/
def pyStr : Option String → String
  | some s => s
  | none => "None"

/-- The create branch of ensure_gpu_instance (vast_service.py lines 73-93):
POST the create request; on an exception, or on a 4xx/5xx status (which
raise_for_status turns into an exception), the handler logs and returns None
leaving the Redis key untouched; otherwise the id taken from the body via
str(data.get("id") or data.get("instance_id")) is recorded and returned when
non-empty.  The body argument is the optional id field of the response. -/
def createInstance (resp : HttpResult (Option String)) (fleet : Option String) :
    Option String × Option String :=
  match resp with
  | HttpResult.netError => (none, fleet)
  | HttpResult.response code idField =>
    if 400 ≤ code then (none, fleet)
    else
      let iid := pyStr idField
      if iid == "" then (none, fleet)
      else (some iid, some iid)

/-- The provider responses consumed by one controller invocation. -/
structure ProviderEnv where
  statusResp : HttpResult String
  createResp : HttpResult (Option String)
  stopResp : HttpResult Unit
  destroyResp : HttpResult Unit
deriving DecidableEq, Repr

/-- ensure_gpu_instance (vast_service.py lines 65-93): when the recorded
instance exists and the status check reports it running, return it unchanged;
otherwise run the create branch.  Returns the resulting id (or None) paired
with the new Fleet State. -/
def ensure_gpu_instance (env : ProviderEnv) (fleet : Option String) :
    Option String × Option String :=
  match fleet with
  | some existing =>
    if is_instance_running env.statusResp then (some existing, some existing)
    else createInstance env.createResp fleet
  | none => createInstance env.createResp fleet

/-- stop_instance (vast_service.py lines 96-108): on a 200/202/204 response
clear the Redis key and return True; on any other status or on an exception
return False leaving the key untouched. -/
def stop_instance (resp : HttpResult Unit) (fleet : Option String) :
    Bool × Option String :=
  match resp with
  | HttpResult.netError => (false, fleet)
  | HttpResult.response code _ =>
    if code == 200 || code == 202 || code == 204 then (true, none)
    else (false, fleet)

/-- destroy_instance (vast_service.py lines 111-123): same shape as
stop_instance over the DELETE call. -/
def destroy_instance (resp : HttpResult Unit) (fleet : Option String) :
    Bool × Option String :=
  match resp with
  | HttpResult.netError => (false, fleet)
  | HttpResult.response code _ =>
    if code == 200 || code == 202 || code == 204 then (true, none)
    else (false, fleet)

/-- settings.GPU_IDLE_TIMEOUT_SEC or 180 (vast_service.py line 130): the
configured value unless it is falsy (zero). -/
def effectiveIdleTimeout (cfg : Nat) : Nat :=
  if cfg == 0 then 180 else cfg

/-- (settings.STOP_MODE or "stop") (vast_service.py line 132): the configured
value unless it is the empty string. -/
def effectiveStopMode (cfg : String) : String :=
  if cfg == "" then "stop" else cfg

/-- maybe_shutdown_gpu (vast_service.py lines 126-135): no-op when no instance
is recorded or when idle_seconds is below the effective idle timeout;
otherwise stop or destroy the recorded instance per the configured mode.
Returns the new Fleet State. -/
def maybe_shutdown_gpu (env : ProviderEnv) (idle_seconds : Nat)
    (cfgTimeout : Nat) (cfgStopMode : String) (fleet : Option String) :
    Option String :=
  match fleet with
  | none => none
  | some _ =>
    if idle_seconds < effectiveIdleTimeout cfgTimeout then fleet
    else if (effectiveStopMode cfgStopMode).toLower == "destroy" then
      (destroy_instance env.destroyResp fleet).2
    else
      (stop_instance env.stopResp fleet).2

/-- A provider call that failed: an exception, or a status that the handler
treats as failure (raise_for_status on 4xx/5xx for the create call). -/
def createCallFailed : HttpResult (Option String) → Bool
  | HttpResult.netError => true
  | HttpResult.response code _ => 400 ≤ code

/-- A stop or destroy call that failed: an exception or a status outside
200/202/204. -/
def stopCallFailed : HttpResult Unit → Bool
  | HttpResult.netError => true
  | HttpResult.response code _ => !(code == 200 || code == 202 || code == 204)

/-
Concrete sample rows used by the closed witness and counterexample theorems.
-/

/-- A baseline queued job row. -/
def baseJob : Job :=
  { id := 1
    user_id := 7
    kind := "generate_image"
    payload_json := "p"
    status := JobStatus.queued
    result_json := none
    error_message := none
    priority := 0
    reserved_by := none
    reserved_at := none
    retries := 0
    created_at := 0
    updated_at := 0
    started_at := none
    completed_at := none }

/-- A running job held by worker w1, reserved at time 10. -/
def runningJob : Job :=
  { baseJob with
    id := 1
    status := JobStatus.running
    reserved_by := some "w1"
    reserved_at := some 10
    started_at := some 10
    updated_at := 10 }

/-- A failed job with exhausted retries whose reservation was never cleared,
exactly as the fail endpoint leaves it. -/
def exhaustedJob : Job :=
  { baseJob with
    id := 1
    status := JobStatus.failed
    reserved_by := some "w1"
    reserved_at := some 10
    started_at := some 10
    retries := 3
    error_message := some "boom"
    completed_at := some 20 }

/-- A two-job backlog: job 1 at priority 5 created first, job 2 at priority 9
created later. -/
def backlog2 : List Job :=
  [ { baseJob with id := 1, priority := 5, created_at := 0 },
    { baseJob with id := 2, priority := 9, created_at := 1 } ]

/-- The row returned when w1 claims the priority-9 job of backlog2 at time 5. -/
def claimedHi : Job :=
  { baseJob with
    id := 2
    priority := 9
    created_at := 1
    status := JobStatus.running
    reserved_by := some "w1"
    reserved_at := some 5
    started_at := some 5
    updated_at := 5 }

/-- The row returned when w2 claims the remaining priority-5 job at time 6. -/
def claimedLo : Job :=
  { baseJob with
    id := 1
    priority := 5
    created_at := 0
    status := JobStatus.running
    reserved_by := some "w2"
    reserved_at := some 6
    started_at := some 6
    updated_at := 6 }

/-- Provider responses where the status check of the recorded instance fails
with a network exception while the create call succeeds with id inst2. -/
def envStatusFail : ProviderEnv :=
  { statusResp := HttpResult.netError
    createResp := HttpResult.response 200 (some "inst2")
    stopResp := HttpResult.response 200 ()
    destroyResp := HttpResult.response 200 () }

/-- Provider responses where every call succeeds and the status check reports
a running instance. -/
def envHealthy : ProviderEnv :=
  { statusResp := HttpResult.response 200 "running"
    createResp := HttpResult.response 200 (some "inst2")
    stopResp := HttpResult.response 200 ()
    destroyResp := HttpResult.response 200 () }

/-- Provider responses where every call fails with a network exception. -/
def envAllFail : ProviderEnv :=
  { statusResp := HttpResult.netError
    createResp := HttpResult.netError
    stopResp := HttpResult.netError
    destroyResp := HttpResult.netError }

/-- Length-preserving pointwise monotonicity of the retries column. -/
def retriesMono (a b : List Job) : Prop :=
  b.length = a.length ∧
    ∀ i (ha : i < a.length) (hb : i < b.length),
      (a.get ⟨i, ha⟩).retries ≤ (b.get ⟨i, hb⟩).retries

/-- The invariant that a running job always carries a holder. -/
def runningHasHolder (db : List Job) : Prop :=
  ∀ j ∈ db, j.status = JobStatus.running → j.reserved_by ≠ none

/-- A completed or cancelled row. -/
def terminalCC (j : Job) : Prop :=
  j.status = JobStatus.completed ∨ j.status = JobStatus.cancelled

theorem better_irrefl (a : Job) : better a a = false := by
  simp [better]

theorem better_asymm {a b : Job} (h : better a b = true) : better b a = false := by
  simp only [better, decide_eq_true_eq] at h
  simp only [better, decide_eq_false_iff_not]
  rcases h with h | ⟨h1, h2⟩ <;> rintro (h3 | ⟨h4, h5⟩) <;> omega

theorem better_negtrans {a b c : Job} (h1 : better a b = false)
    (h2 : better b c = false) : better a c = false := by
  simp only [better, decide_eq_false_iff_not] at h1 h2 ⊢
  push_neg at h1 h2 ⊢
  obtain ⟨h1a, h1b⟩ := h1
  obtain ⟨h2a, h2b⟩ := h2
  refine ⟨by omega, ?_⟩
  intro he
  have hab : a.priority = b.priority := by omega
  have hbc : b.priority = c.priority := by omega
  have := h1b hab
  have := h2b hbc
  omega

theorem selectBest_eq_none {l : List Job} : selectBest l = none ↔ l = [] := by
  cases l with
  | nil => simp [selectBest]
  | cons a rest =>
    simp only [selectBest]
    cases hrest : selectBest rest with
    | none => simp
    | some b => cases hcmp : better b a <;> simp [hcmp]

theorem selectBest_mem {l : List Job} : ∀ {j : Job}, selectBest l = some j → j ∈ l := by
  induction l with
  | nil => intro j h; simp [selectBest] at h
  | cons a rest ih =>
    intro j h
    cases hrest : selectBest rest with
    | none =>
      simp only [selectBest, hrest, Option.some.injEq] at h
      subst h
      exact List.mem_cons_self a rest
    | some b =>
      simp only [selectBest, hrest] at h
      by_cases hcmp : better b a = true
      · rw [if_pos hcmp] at h
        simp only [Option.some.injEq] at h
        subst h
        exact List.mem_cons_of_mem a (ih hrest)
      · rw [if_neg hcmp] at h
        simp only [Option.some.injEq] at h
        subst h
        exact List.mem_cons_self a rest

theorem selectBest_isBest {l : List Job} : ∀ {j : Job}, selectBest l = some j →
    ∀ x ∈ l, better x j = false := by
  induction l with
  | nil => intro j h; simp [selectBest] at h
  | cons a rest ih =>
    intro j h
    cases hrest : selectBest rest with
    | none =>
      have hnil : rest = [] := selectBest_eq_none.mp hrest
      subst hnil
      simp only [selectBest, Option.some.injEq] at h
      subst h
      intro x hx
      rcases List.mem_cons.mp hx with rfl | hx2
      · exact better_irrefl _
      · exact absurd hx2 (List.not_mem_nil x)
    | some b =>
      have hbest := ih hrest
      simp only [selectBest, hrest] at h
      by_cases hcmp : better b a = true
      · rw [if_pos hcmp] at h
        simp only [Option.some.injEq] at h
        subst h
        intro x hx
        rcases List.mem_cons.mp hx with rfl | hx2
        · exact better_asymm hcmp
        · exact hbest x hx2
      · rw [if_neg hcmp] at h
        simp only [Option.some.injEq] at h
        subst h
        intro x hx
        rcases List.mem_cons.mp hx with rfl | hx2
        · exact better_irrefl _
        · exact better_negtrans (hbest x hx2) (by simpa using hcmp)

theorem findById_mem {db : List Job} {jid : Nat} {j : Job}
    (h : findById db jid = some j) : j ∈ db ∧ j.id = jid := by
  unfold findById at h
  refine ⟨List.mem_of_find?_eq_some h, ?_⟩
  have h1 := List.find?_some h
  simpa using h1

theorem id_inj_of_nodup {db : List Job} (hnd : (db.map Job.id).Nodup)
    {x y : Job} (hx : x ∈ db) (hy : y ∈ db) (hid : x.id = y.id) : x = y :=
  List.inj_on_of_nodup_map hnd hx hy hid

theorem mem_updateById {db : List Job} {jid : Nat} {j' x : Job}
    (hx : x ∈ updateById db jid j') :
    x = j' ∨ (x ∈ db ∧ (x.id = jid → False)) := by
  unfold updateById at hx
  rcases List.mem_map.mp hx with ⟨y, hy, hfy⟩
  by_cases h : y.id = jid
  · left
    rw [if_pos (by simpa using h)] at hfy
    exact hfy.symm
  · right
    rw [if_neg (by simpa using h)] at hfy
    subst hfy
    exact ⟨hy, h⟩

theorem retriesMono_refl (db : List Job) : retriesMono db db :=
  ⟨rfl, fun _ _ _ => le_refl _⟩

theorem retriesMono_map {db : List Job} {f : Job → Job}
    (h : ∀ x ∈ db, x.retries ≤ (f x).retries) : retriesMono db (db.map f) := by
  refine ⟨by simp, ?_⟩
  intro i ha hb
  simp only [List.get_eq_getElem, List.getElem_map]
  exact h _ (List.getElem_mem ha)

theorem get_updateById {db : List Job} {jid : Nat} {j2 : Job} {i : Nat}
    (ha : i < db.length) (hb : i < (updateById db jid j2).length) :
    (updateById db jid j2).get ⟨i, hb⟩ =
      if (db.get ⟨i, ha⟩).id == jid then j2 else db.get ⟨i, ha⟩ := by
  simp [updateById, List.get_eq_getElem, List.getElem_map]

theorem retriesMono_updateById {db : List Job} {jid : Nat} {j j2 : Job}
    (hnd : (db.map Job.id).Nodup) (hj : j ∈ db) (hjid : j.id = jid)
    (hret : j.retries ≤ j2.retries) : retriesMono db (updateById db jid j2) := by
  apply retriesMono_map
  intro x hx
  by_cases h : (x.id == jid) = true
  · have hxj : x = j := id_inj_of_nodup hnd hx hj (by simp at h; omega)
    rw [if_pos h, hxj]
    exact hret
  · rw [if_neg h]

theorem claim_job_some {db : List Job} {w : String} {t : Nat} {j : Job}
    (h : (claim_job db w t).1 = some j) :
    ∃ j0, selectBest (db.filter eligible) = some j0 ∧
      j = { j0 with
              status := JobStatus.running
              reserved_by := some w
              reserved_at := some t
              started_at := some t
              updated_at := t } ∧
      (claim_job db w t).2 = updateById db j0.id j := by
  cases hsel : selectBest (db.filter eligible) with
  | none => simp [claim_job, hsel] at h
  | some j0 =>
    simp only [claim_job, hsel, Option.some.injEq] at h
    refine ⟨j0, rfl, h.symm, ?_⟩
    simp only [claim_job, hsel]
    rw [h]

theorem claim_job_none_of_no_eligible {db : List Job} {w : String} {t : Nat}
    (h : ∀ x ∈ db, eligible x = false) : claim_job db w t = (none, db) := by
  have hfil : db.filter eligible = [] := by
    rw [List.filter_eq_nil_iff]
    intro x hx
    simp [h x hx]
  simp [claim_job, hfil, selectBest]

theorem claim_dryrun_snd (db : List Job) : (claim_dryrun db).2 = db := by
  unfold claim_dryrun
  cases selectBest (db.filter eligible) <;> rfl

theorem applyTransition_retries (j : Job) (st : JobStatus)
    (r e : Option String) (now : Nat) :
    j.retries ≤ (applyTransition j st r e now).retries := by
  cases st <;> simp [applyTransition]
  split <;> simp

theorem applyTransition_running_holder (j : Job) (st : JobStatus)
    (r e : Option String) (now : Nat)
    (h : (applyTransition j st r e now).status = JobStatus.running) :
    (applyTransition j st r e now).reserved_by = j.reserved_by := by
  cases st <;> simp [applyTransition] at h ⊢
  split at h <;> simp_all

theorem update_job_status_cases (db : List Job) (jid : Nat) (st : JobStatus)
    (w : String) (r e : Option String) (now : Nat) :
    (update_job_status db jid st w r e now).2 = db ∨
    ∃ j, findById db jid = some j ∧ j.reserved_by = some w ∧
      valid_transition j.status st = true ∧
      (update_job_status db jid st w r e now).2 =
        updateById db jid (applyTransition j st r e now) := by
  cases hfind : findById db jid with
  | none => left; simp [update_job_status, hfind]
  | some j =>
    by_cases hres : (j.reserved_by == some w) = true
    · by_cases htr : valid_transition j.status st = true
      · right
        refine ⟨j, rfl, by simpa using hres, htr, ?_⟩
        simp [update_job_status, hfind, hres, htr]
      · left
        simp [update_job_status, hfind, hres, htr]
    · left
      simp [update_job_status, hfind, hres]

theorem mark_done_result (db : List Job) (jid : Nat) (w r : String) (now : Nat) :
    (mark_done db jid w r now).2 = db ∨
    ∃ j, findById db jid = some j ∧
      (mark_done db jid w r now).2 = updateById db jid
        { j with
          status := JobStatus.completed
          result_json := some r
          error_message := none
          completed_at := some now } := by
  cases hfind : findById db jid with
  | none => left; simp [mark_done, hfind]
  | some j =>
    by_cases hres : (j.reserved_by == some w) = true
    · right; exact ⟨j, rfl, by simp [mark_done, hfind, hres]⟩
    · left; simp [mark_done, hfind, hres]

theorem mark_fail_result (db : List Job) (jid : Nat) (w msg : String) (now : Nat) :
    (mark_fail db jid w msg now).2 = db ∨
    ∃ j, findById db jid = some j ∧
      (mark_fail db jid w msg now).2 = updateById db jid
        { j with
          status := JobStatus.failed
          error_message := some msg
          completed_at := some now
          retries := j.retries + 1 } := by
  cases hfind : findById db jid with
  | none => left; simp [mark_fail, hfind]
  | some j =>
    by_cases hres : (j.reserved_by == some w) = true
    · right; exact ⟨j, rfl, by simp [mark_fail, hfind, hres]⟩
    · left; simp [mark_fail, hfind, hres]

theorem job_heartbeat_result (db : List Job) (jid : Nat) (w : String) (now : Nat) :
    (job_heartbeat db jid w now).2 = db ∨
    ∃ j, findById db jid = some j ∧
      (job_heartbeat db jid w now).2 = updateById db jid { j with updated_at := now } := by
  cases hfind : findById db jid with
  | none => left; simp [job_heartbeat, hfind]
  | some j =>
    by_cases hres : (j.reserved_by == some w) = true
    · right; exact ⟨j, rfl, by simp [job_heartbeat, hfind, hres]⟩
    · left; simp [job_heartbeat, hfind, hres]

theorem recoverJob_retries (now : Nat) (j : Job) :
    (recoverJob now j).retries = j.retries + 1 := by
  simp only [recoverJob]
  split <;> rfl

theorem recoverJob_not_running (now : Nat) (j : Job) :
    (recoverJob now j).status ≠ JobStatus.running := by
  simp only [recoverJob]
  split <;> simp

theorem findById_updateById {jid : Nat} {j j2 : Job} (hid : j2.id = jid) :
    ∀ {db : List Job}, findById db jid = some j →
      findById (updateById db jid j2) jid = some j2 := by
  intro db
  induction db with
  | nil => intro hfind; simp [findById] at hfind
  | cons a rest ih =>
    intro hfind
    by_cases h : (a.id == jid) = true
    · simp only [updateById, List.map_cons, if_pos h, findById]
      exact List.find?_cons_of_pos _ (by simpa using hid)
    · have hfind2 : findById rest jid = some j := by
        unfold findById at hfind
        rwa [List.find?_cons_of_neg _ (by simpa using h)] at hfind
      have hrec := ih hfind2
      unfold findById updateById at hrec ⊢
      simp only [List.map_cons, if_neg h]
      rw [List.find?_cons_of_neg _ (by simpa using h)]
      exact hrec

theorem applyTransition_id (j : Job) (st : JobStatus) (r e : Option String)
    (now : Nat) : (applyTransition j st r e now).id = j.id := by
  cases st <;> simp [applyTransition]
  split <;> rfl

theorem applyTransition_failed_retries (j : Job) (r e : Option String)
    (now : Nat) :
    (applyTransition j JobStatus.failed r e now).retries = j.retries + 1 := by
  by_cases hcut : 3 ≤ j.retries + 1
  · simp [applyTransition, hcut]
  · simp [applyTransition, hcut]

theorem applyTransition_failed_status (j : Job) (r e : Option String)
    (now : Nat) :
    (applyTransition j JobStatus.failed r e now).status =
      if j.retries + 1 < 3 then JobStatus.queued else JobStatus.failed := by
  by_cases hcut : 3 ≤ j.retries + 1
  · simp [applyTransition, hcut, show ¬(j.retries + 1 < 3) from by omega]
  · simp [applyTransition, hcut, show j.retries + 1 < 3 from by omega]

theorem applyTransition_failed_reserved (j : Job) (r e : Option String)
    (now : Nat) :
    (applyTransition j JobStatus.failed r e now).reserved_by =
      if j.retries + 1 < 3 then none else j.reserved_by := by
  by_cases hcut : 3 ≤ j.retries + 1
  · simp [applyTransition, hcut, show ¬(j.retries + 1 < 3) from by omega]
  · simp [applyTransition, hcut, show j.retries + 1 < 3 from by omega]

theorem applyTransition_failed_completed (j : Job) (r e : Option String)
    (now : Nat) :
    (applyTransition j JobStatus.failed r e now).completed_at = some now := by
  by_cases hcut : 3 ≤ j.retries + 1
  · simp [applyTransition, hcut]
  · simp [applyTransition, hcut]

/-- Claim C1: the spec states that the liveness sweep recovers exactly the
running jobs whose updated_at (reset by every accepted heartbeat) is older
than the timeout, leaving any job heartbeated within the window untouched.
The code filters on reserved_at instead (job_orchestration.py line 163),
which no heartbeat ever refreshes: here the holder of job 1 heartbeats at
time 100, inside the window whose threshold is 50, so its updated_at is 100,
yet the sweep still recovers the job because its reserved_at is 10. -/
theorem C1_sweep_filters_on_reserved_at :
    (job_heartbeat [runningJob] 1 "w1" 100).1 = WorkerApiResult.ok () ∧
    (findById (job_heartbeat [runningJob] 1 "w1" 100).2 1).map Job.updated_at =
      some 100 ∧
    (requeue_stuck_jobs (job_heartbeat [runningJob] 1 "w1" 100).2 50 110).1 = 1 ∧
    (findById (requeue_stuck_jobs (job_heartbeat [runningJob] 1 "w1" 100).2 50 110).2 1).map
      Job.status = some JobStatus.queued ∧
    (findById (requeue_stuck_jobs (job_heartbeat [runningJob] 1 "w1" 100).2 50 110).2 1).map
      Job.retries = some 1 := by
  decide

/-- Claim C2 (counterexample): the claim states that a fail report on a
running job with retries 0 (below the ceiling) returns the job to queued with
the reservation cleared.  The fail endpoint instead marks the job failed and
keeps reserved_by. -/
theorem C2_counterexample :
    runningJob.retries = 0 ∧
    (mark_fail [runningJob] 1 "w1" "boom" 50).1 = WorkerApiResult.ok () ∧
    (findById (mark_fail [runningJob] 1 "w1" "boom" 50).2 1).map Job.status =
      some JobStatus.failed ∧
    (findById (mark_fail [runningJob] 1 "w1" "boom" 50).2 1).map Job.reserved_by =
      some (some "w1") ∧
    (findById (mark_fail [runningJob] 1 "w1" "boom" 50).2 1).map Job.retries =
      some 1 := by
  decide

/-- Claim C2 (amended): a fail report through the fail endpoint by the worker
matching reserved_by always sets the job to failed with the error and
completed_at recorded, retries incremented by one and the reservation left in
place, regardless of the retry ceiling; the retry-requeue rule lives only in
the service method update_job_status, which requeues the job (clearing the
reservation) while the incremented retries is still below 3 and marks it
failed otherwise. -/
theorem C2_amended (db : List Job) (jid : Nat) (w msg : String)
    (r e : Option String) (now : Nat) (j : Job)
    (hfind : findById db jid = some j)
    (hrun : j.status = JobStatus.running)
    (hres : j.reserved_by = some w) :
    mark_fail db jid w msg now =
      (WorkerApiResult.ok (), updateById db jid
        { j with
          status := JobStatus.failed
          error_message := some msg
          completed_at := some now
          retries := j.retries + 1 }) ∧
    (update_job_status db jid JobStatus.failed w r e now).1 = true ∧
    (findById (update_job_status db jid JobStatus.failed w r e now).2 jid).map
      Job.retries = some (j.retries + 1) ∧
    (findById (update_job_status db jid JobStatus.failed w r e now).2 jid).map
      Job.status =
      some (if j.retries + 1 < 3 then JobStatus.queued else JobStatus.failed) ∧
    (findById (update_job_status db jid JobStatus.failed w r e now).2 jid).map
      Job.reserved_by =
      some (if j.retries + 1 < 3 then none else some w) ∧
    (findById (update_job_status db jid JobStatus.failed w r e now).2 jid).map
      Job.completed_at = some (some now) := by
  have hbeq : (j.reserved_by == some w) = true := by simp [hres]
  have htr : valid_transition j.status JobStatus.failed = true := by
    rw [hrun]; rfl
  have hupd : update_job_status db jid JobStatus.failed w r e now =
      (true, updateById db jid (applyTransition j JobStatus.failed r e now)) := by
    simp [update_job_status, hfind, hbeq, htr]
  have hjid : j.id = jid := (findById_mem hfind).2
  have hfound : findById (update_job_status db jid JobStatus.failed w r e now).2 jid =
      some (applyTransition j JobStatus.failed r e now) := by
    rw [hupd]
    exact findById_updateById (by rw [applyTransition_id, hjid]) hfind
  refine ⟨by simp [mark_fail, hfind, hbeq], by rw [hupd], ?_, ?_, ?_, ?_⟩
  · simp [hfound, applyTransition_failed_retries]
  · simp [hfound, applyTransition_failed_status]
  · simp [hfound, applyTransition_failed_reserved, hres]
  · simp [hfound, applyTransition_failed_completed]

/-- Claim C2 (witness): the amended fail-endpoint behavior evaluated on a
concrete running job held by w1. -/
theorem C2_amended_witness :
    mark_fail [runningJob] 1 "w1" "boom" 50 =
      (WorkerApiResult.ok (), updateById [runningJob] 1
        { runningJob with
          status := JobStatus.failed
          error_message := some "boom"
          completed_at := some 50
          retries := runningJob.retries + 1 }) :=
  (C2_amended [runningJob] 1 "w1" "boom" none none 50 runningJob
    (by decide) (by decide) (by decide)).1

/-- Claim C3: each claim call is one atomic transaction (a single UPDATE with
FOR UPDATE SKIP LOCKED, or a locked select and update committed together), so
concurrent claims linearize into successive atomic steps on the store.  Two
successive successful claims never return the same job, and the first claimed
job is persisted as running in the intermediate state. -/
theorem C3_claim_mutual_exclusion (db : List Job) (w1 w2 : String)
    (t1 t2 : Nat) (j1 j2 : Job)
    (h1 : (claim_job db w1 t1).1 = some j1)
    (h2 : (claim_job (claim_job db w1 t1).2 w2 t2).1 = some j2) :
    j1.id ≠ j2.id ∧
    ∀ x ∈ (claim_job db w1 t1).2, x.id = j1.id → x.status = JobStatus.running := by
  obtain ⟨j0, hsel, hj1, hdb1⟩ := claim_job_some h1
  have hid1 : j1.id = j0.id := by rw [hj1]
  have hrun : ∀ x ∈ (claim_job db w1 t1).2, x.id = j1.id →
      x.status = JobStatus.running := by
    intro x hx hxid
    rw [hdb1] at hx
    rcases mem_updateById hx with rfl | ⟨hxdb, hne⟩
    · rw [hj1]
    · exact absurd (hxid.trans hid1) hne
  refine ⟨?_, hrun⟩
  obtain ⟨j0strich, hsel2, hj2, hdb2⟩ := claim_job_some h2
  intro heq
  have hmf := List.mem_filter.mp (selectBest_mem hsel2)
  have hidj : j0strich.id = j1.id := by
    have hj2id : j2.id = j0strich.id := by rw [hj2]
    omega
  have hst := hrun j0strich hmf.1 hidj
  have hel := hmf.2
  simp [eligible, hst] at hel

/-- Claim C3 (witness): on the two-job backlog, worker w1 claims the
priority-9 job and worker w2 then claims the priority-5 job; the ids differ
and the first job is persisted running. -/
theorem C3_witness :
    claimedHi.id ≠ claimedLo.id ∧
    ∀ x ∈ (claim_job backlog2 "w1" 5).2, x.id = claimedHi.id →
      x.status = JobStatus.running :=
  C3_claim_mutual_exclusion backlog2 "w1" "w2" 5 6 claimedHi claimedLo
    (by decide) (by decide)

/-- Claim C4: a successful claim returns a job derived from an eligible
(queued) row that is maximal for priority with ties broken by the oldest
created_at, and is persisted running; when no eligible row exists the claim
returns the empty no-content result leaving the store unchanged. -/
theorem C4_claim_selection_policy :
    (∀ (db : List Job) (w : String) (t : Nat),
      (∀ x ∈ db, eligible x = false) → claim_job db w t = (none, db)) ∧
    (∀ (db : List Job) (w : String) (t : Nat) (j : Job),
      (claim_job db w t).1 = some j →
      ∃ j0 ∈ db, eligible j0 = true ∧ j.id = j0.id ∧
        j.status = JobStatus.running ∧ j.priority = j0.priority ∧
        j.created_at = j0.created_at ∧
        ∀ x ∈ db, eligible x = true → better x j0 = false) := by
  constructor
  · intro db w t h
    exact claim_job_none_of_no_eligible h
  · intro db w t j h
    obtain ⟨j0, hsel, hj, hdb⟩ := claim_job_some h
    have hmf := List.mem_filter.mp (selectBest_mem hsel)
    refine ⟨j0, hmf.1, hmf.2, ?_, ?_, ?_, ?_, ?_⟩
    · rw [hj]
    · rw [hj]
    · rw [hj]
    · rw [hj]
    · intro x hx hxel
      exact selectBest_isBest hsel x (List.mem_filter.mpr ⟨hx, hxel⟩)

/-- Claim C4 (witness): an all-terminal store yields the empty result, and on
the two-job backlog the claimed job comes from the priority-9 row, which no
eligible row beats. -/
theorem C4_witness :
    claim_job [exhaustedJob] "w9" 3 = (none, [exhaustedJob]) ∧
    (∃ j0 ∈ backlog2, eligible j0 = true ∧ claimedHi.id = j0.id ∧
      claimedHi.status = JobStatus.running ∧ claimedHi.priority = j0.priority ∧
      claimedHi.created_at = j0.created_at ∧
      ∀ x ∈ backlog2, eligible x = true → better x j0 = false) :=
  ⟨C4_claim_selection_policy.1 [exhaustedJob] "w9" 3 (by decide),
   C4_claim_selection_policy.2 backlog2 "w1" 5 claimedHi (by decide)⟩

/-- Claim C5 (counterexample): the claim states that a job that is failed
with retries at the ceiling is terminal and never transitions again.  The
done endpoint checks only reserved_by (which the fail endpoint never clears),
so the stale holder can move the exhausted failed job to completed. -/
theorem C5_counterexample :
    exhaustedJob.status = JobStatus.failed ∧ exhaustedJob.retries = 3 ∧
    (mark_done [exhaustedJob] 1 "w1" "res" 99).1 = WorkerApiResult.ok () ∧
    (findById (mark_done [exhaustedJob] 1 "w1" "res" 99).2 1).map Job.status =
      some JobStatus.completed := by
  decide

/-- Claim C5 (amended): over a store with distinct ids, retries never
decreases under any core operation; and every operation other than the done
and fail reports preserves the status of a completed or cancelled job.  A
failed job with exhausted retries is not terminal against done/fail reports
from the stale holder, and update_job_status additionally permits
failed to queued regardless of retries. -/
theorem C5_amended (op : CoreOp) (db : List Job)
    (hnd : (db.map Job.id).Nodup) :
    retriesMono db (applyOp op db) ∧
    (op.isWorkerReport = false →
      ∀ i (ha : i < db.length) (hb : i < (applyOp op db).length),
        terminalCC (db.get ⟨i, ha⟩) →
        ((applyOp op db).get ⟨i, hb⟩).status = (db.get ⟨i, ha⟩).status) := by
  cases op with
  | claim w now =>
    simp only [applyOp]
    cases hsel : selectBest (db.filter eligible) with
    | none =>
      have hcl : (claim_job db w now).2 = db := by simp [claim_job, hsel]
      rw [hcl]
      exact ⟨retriesMono_refl db, fun _ i ha hb _ => rfl⟩
    | some j0 =>
      have hmf := List.mem_filter.mp (selectBest_mem hsel)
      have hup : (claim_job db w now).2 =
          updateById db j0.id
            { j0 with
              status := JobStatus.running
              reserved_by := some w
              reserved_at := some now
              started_at := some now
              updated_at := now } := by
        simp [claim_job, hsel]
      rw [hup]
      constructor
      · exact retriesMono_updateById hnd hmf.1 rfl (le_refl _)
      · intro _ i ha hb hterm
        rw [get_updateById ha hb]
        by_cases hid : ((db.get ⟨i, ha⟩).id == j0.id) = true
        · exfalso
          have hx : db.get ⟨i, ha⟩ = j0 :=
            id_inj_of_nodup hnd (List.get_mem db i ha) hmf.1 (by simpa using hid)
          have hq := hmf.2
          rcases hterm with h | h <;> rw [hx] at h <;> simp [eligible, h] at hq
        · rw [if_neg hid]
  | done jid w r now =>
    refine ⟨?_, fun h => by simp [CoreOp.isWorkerReport] at h⟩
    simp only [applyOp]
    rcases mark_done_result db jid w r now with heq | ⟨j, hfind, heq⟩
    · rw [heq]; exact retriesMono_refl db
    · rw [heq]
      exact retriesMono_updateById hnd (findById_mem hfind).1
        (findById_mem hfind).2 (le_refl _)
  | fail jid w msg now =>
    refine ⟨?_, fun h => by simp [CoreOp.isWorkerReport] at h⟩
    simp only [applyOp]
    rcases mark_fail_result db jid w msg now with heq | ⟨j, hfind, heq⟩
    · rw [heq]; exact retriesMono_refl db
    · rw [heq]
      exact retriesMono_updateById hnd (findById_mem hfind).1
        (findById_mem hfind).2 (Nat.le_succ _)
  | heartbeat jid w now =>
    simp only [applyOp]
    rcases job_heartbeat_result db jid w now with heq | ⟨j, hfind, heq⟩
    · rw [heq]
      exact ⟨retriesMono_refl db, fun _ i ha hb _ => rfl⟩
    · rw [heq]
      refine ⟨retriesMono_updateById hnd (findById_mem hfind).1
        (findById_mem hfind).2 (le_refl _), ?_⟩
      intro _ i ha hb hterm
      rw [get_updateById ha hb]
      by_cases hid : ((db.get ⟨i, ha⟩).id == jid) = true
      · have hid2 : (db.get ⟨i, ha⟩).id = jid := by simpa using hid
        have hx : db.get ⟨i, ha⟩ = j :=
          id_inj_of_nodup hnd (List.get_mem db i ha) (findById_mem hfind).1
            (by rw [hid2, (findById_mem hfind).2])
        rw [if_pos hid, hx]
      · rw [if_neg hid]
  | dryrun =>
    simp only [applyOp]
    rw [claim_dryrun_snd]
    exact ⟨retriesMono_refl db, fun _ i ha hb _ => rfl⟩
  | updateStatus jid st w r e now =>
    simp only [applyOp]
    rcases update_job_status_cases db jid st w r e now with heq | ⟨j, hfind, hres, htr, heq⟩
    · rw [heq]
      exact ⟨retriesMono_refl db, fun _ i ha hb _ => rfl⟩
    · rw [heq]
      refine ⟨retriesMono_updateById hnd (findById_mem hfind).1
        (findById_mem hfind).2 (applyTransition_retries j st r e now), ?_⟩
      intro _ i ha hb hterm
      rw [get_updateById ha hb]
      by_cases hid : ((db.get ⟨i, ha⟩).id == jid) = true
      · exfalso
        have hid2 : (db.get ⟨i, ha⟩).id = jid := by simpa using hid
        have hx : db.get ⟨i, ha⟩ = j :=
          id_inj_of_nodup hnd (List.get_mem db i ha) (findById_mem hfind).1
            (by rw [hid2, (findById_mem hfind).2])
        rcases hterm with h | h <;> rw [hx] at h <;> rw [h] at htr <;>
          simp [valid_transition] at htr
      · rw [if_neg hid]
  | sweep threshold now =>
    simp only [applyOp, requeue_stuck_jobs]
    constructor
    · apply retriesMono_map
      intro x hx
      by_cases hs : isStuck threshold x = true
      · rw [if_pos hs, recoverJob_retries]
        omega
      · rw [if_neg hs]
    · intro _ i ha hb hterm
      simp only [List.get_eq_getElem, List.getElem_map]
      have hns : isStuck threshold (db.get ⟨i, ha⟩) = false := by
        unfold isStuck
        rcases hterm with h | h <;> rw [h] <;> simp
      simp only [List.get_eq_getElem] at hns
      rw [if_neg (by simp [hns])]

/-- Claim C5 (witness): the retries monotonicity instance for a fail report
on the concrete running job, and the terminal-status preservation instance
for a sweep over it. -/
theorem C5_witness :
    retriesMono [runningJob] (applyOp (CoreOp.fail 1 "w1" "e" 30) [runningJob]) ∧
    retriesMono [exhaustedJob] (applyOp (CoreOp.sweep 50 60) [exhaustedJob]) :=
  ⟨(C5_amended (CoreOp.fail 1 "w1" "e" 30) [runningJob] (by decide)).1,
   (C5_amended (CoreOp.sweep 50 60) [exhaustedJob] (by decide)).1⟩

/-- Claim C6: a done, fail or heartbeat call whose worker identity differs
from the job's reserved_by is rejected with the 403 forbidden result and the
store is returned unchanged. -/
theorem C6_mismatched_worker_rejected (db : List Job) (jid : Nat)
    (w res msg : String) (t1 t2 t3 : Nat) (j : Job)
    (hfind : findById db jid = some j)
    (hmm : j.reserved_by ≠ some w) :
    mark_done db jid w res t1 = (WorkerApiResult.forbidden, db) ∧
    mark_fail db jid w msg t2 = (WorkerApiResult.forbidden, db) ∧
    job_heartbeat db jid w t3 = (WorkerApiResult.forbidden, db) := by
  have hbeq : (j.reserved_by == some w) = false := by simpa using hmm
  refine ⟨?_, ?_, ?_⟩ <;>
    simp [mark_done, mark_fail, job_heartbeat, hfind, hbeq]

/-- Claim C6 (witness): worker w2 reporting on the job held by w1 receives
403 on all three endpoints and the store is unchanged. -/
theorem C6_witness :
    mark_done [runningJob] 1 "w2" "r" 5 = (WorkerApiResult.forbidden, [runningJob]) ∧
    mark_fail [runningJob] 1 "w2" "e" 6 = (WorkerApiResult.forbidden, [runningJob]) ∧
    job_heartbeat [runningJob] 1 "w2" 7 = (WorkerApiResult.forbidden, [runningJob]) :=
  C6_mismatched_worker_rejected [runningJob] 1 "w2" "r" "e" 5 6 7 runningJob
    (by decide) (by decide)

/-- Claim C7 (counterexample): the claim states that every operation
preserves the invariant that reserved_by is non-empty exactly when the job is
running.  The done endpoint completes the job without clearing reserved_by,
breaking the invariant on a store that satisfied it. -/
theorem C7_counterexample :
    (∀ j ∈ [runningJob], (j.reserved_by ≠ none ↔ j.status = JobStatus.running)) ∧
    (mark_done [runningJob] 1 "w1" "r" 99).1 = WorkerApiResult.ok () ∧
    ¬(∀ j ∈ (mark_done [runningJob] 1 "w1" "r" 99).2,
        (j.reserved_by ≠ none ↔ j.status = JobStatus.running)) := by
  decide

/-- Claim C7 (amended): every core operation preserves the forward direction
of the invariant: a running job always has a non-empty reserved_by.  The
backward direction is not preserved: done and fail reports, and completion or
terminal failure through update_job_status, leave reserved_by set on a job
that is no longer running; only the requeue paths clear it. -/
theorem C7_amended (op : CoreOp) (db : List Job)
    (hinv : runningHasHolder db) : runningHasHolder (applyOp op db) := by
  cases op with
  | claim w now =>
    simp only [applyOp]
    cases hsel : selectBest (db.filter eligible) with
    | none =>
      have hcl : (claim_job db w now).2 = db := by simp [claim_job, hsel]
      rw [hcl]; exact hinv
    | some j0 =>
      intro x hx hrun
      simp only [claim_job, hsel] at hx
      rcases mem_updateById hx with rfl | ⟨hxdb, _⟩
      · simp
      · exact hinv x hxdb hrun
  | done jid w r now =>
    simp only [applyOp]
    rcases mark_done_result db jid w r now with heq | ⟨j, hfind, heq⟩
    · rw [heq]; exact hinv
    · rw [heq]
      intro x hx hrun
      rcases mem_updateById hx with rfl | ⟨hxdb, _⟩
      · simp at hrun
      · exact hinv x hxdb hrun
  | fail jid w msg now =>
    simp only [applyOp]
    rcases mark_fail_result db jid w msg now with heq | ⟨j, hfind, heq⟩
    · rw [heq]; exact hinv
    · rw [heq]
      intro x hx hrun
      rcases mem_updateById hx with rfl | ⟨hxdb, _⟩
      · simp at hrun
      · exact hinv x hxdb hrun
  | heartbeat jid w now =>
    simp only [applyOp]
    rcases job_heartbeat_result db jid w now with heq | ⟨j, hfind, heq⟩
    · rw [heq]; exact hinv
    · rw [heq]
      intro x hx hrun
      rcases mem_updateById hx with rfl | ⟨hxdb, _⟩
      · have hj := hinv j (findById_mem hfind).1 (by simpa using hrun)
        simpa using hj
      · exact hinv x hxdb hrun
  | dryrun =>
    simp only [applyOp]
    rw [claim_dryrun_snd]
    exact hinv
  | updateStatus jid st w r e now =>
    simp only [applyOp]
    rcases update_job_status_cases db jid st w r e now with heq | ⟨j, hfind, hres, htr, heq⟩
    · rw [heq]; exact hinv
    · rw [heq]
      intro x hx hrun
      rcases mem_updateById hx with rfl | ⟨hxdb, _⟩
      · rw [applyTransition_running_holder j st r e now hrun, hres]
        simp
      · exact hinv x hxdb hrun
  | sweep threshold now =>
    simp only [applyOp, requeue_stuck_jobs]
    intro x hx hrun
    rcases List.mem_map.mp hx with ⟨y, hy, hfy⟩
    by_cases hs : isStuck threshold y = true
    · rw [if_pos hs] at hfy
      rw [← hfy] at hrun
      exact absurd hrun (recoverJob_not_running now y)
    · rw [if_neg hs] at hfy
      rw [← hfy] at hrun ⊢
      exact hinv y hy hrun

/-- Claim C7 (witness): the forward invariant is preserved when w1 completes
its running job. -/
theorem C7_witness :
    runningHasHolder (applyOp (CoreOp.done 1 "w1" "r" 9) [runningJob]) :=
  C7_amended (CoreOp.done 1 "w1" "r" 9) [runningJob]
    (by unfold runningHasHolder; decide)

/-- Claim C8 (counterexample): the claim states that a provider-API failure
during the status check leaves Fleet State unchanged and surfaces the error.
The code treats a failed status check as instance-not-running, provisions a
new instance and overwrites the recorded id inst1 with inst2. -/
theorem C8_counterexample :
    ensure_gpu_instance envStatusFail (some "inst1") = (some "inst2", some "inst2") ∧
    (ensure_gpu_instance envStatusFail (some "inst1")).2 ≠ some "inst1" := by
  decide

/-- Claim C8 (amended): when the create call fails (exception or a 4xx/5xx
status), ensure_gpu_instance leaves Fleet State unchanged and its result is
either None or the already-recorded id (the error is logged and swallowed,
never raised); when the stop or destroy call fails, Fleet State is unchanged
and False is returned; maybe_shutdown_gpu with failing provider calls leaves
Fleet State unchanged.  A failed status check, however, is treated as
instance-not-running and leads to provisioning (see the counterexample). -/
theorem C8_amended :
    (∀ (env : ProviderEnv) (fleet : Option String),
      createCallFailed env.createResp = true →
      (ensure_gpu_instance env fleet).2 = fleet ∧
      ((ensure_gpu_instance env fleet).1 = none ∨
        (ensure_gpu_instance env fleet).1 = fleet)) ∧
    (∀ (resp : HttpResult Unit) (fleet : Option String),
      stopCallFailed resp = true → stop_instance resp fleet = (false, fleet)) ∧
    (∀ (resp : HttpResult Unit) (fleet : Option String),
      stopCallFailed resp = true → destroy_instance resp fleet = (false, fleet)) ∧
    (∀ (env : ProviderEnv) (idle cfgT : Nat) (mode : String) (fleet : Option String),
      stopCallFailed env.stopResp = true → stopCallFailed env.destroyResp = true →
      maybe_shutdown_gpu env idle cfgT mode fleet = fleet) := by
  have hstop : ∀ (resp : HttpResult Unit) (fleet : Option String),
      stopCallFailed resp = true → stop_instance resp fleet = (false, fleet) := by
    intro resp fleet h
    cases resp with
    | netError => rfl
    | response code b =>
      have hc : (code == 200 || code == 202 || code == 204) = false := by
        simpa [stopCallFailed] using h
      simp [stop_instance, hc]
  have hdes : ∀ (resp : HttpResult Unit) (fleet : Option String),
      stopCallFailed resp = true → destroy_instance resp fleet = (false, fleet) := by
    intro resp fleet h
    cases resp with
    | netError => rfl
    | response code b =>
      have hc : (code == 200 || code == 202 || code == 204) = false := by
        simpa [stopCallFailed] using h
      simp [destroy_instance, hc]
  refine ⟨?_, hstop, hdes, ?_⟩
  · intro env fleet hfail
    have hcr : ∀ f, createInstance env.createResp f = (none, f) := by
      intro f
      cases hr : env.createResp with
      | netError => rfl
      | response code body =>
        have h4 : 400 ≤ code := by
          have := hfail
          rw [hr] at this
          simpa [createCallFailed] using this
        simp [createInstance, h4]
    have hmain : ensure_gpu_instance env fleet = (none, fleet) ∨
        ensure_gpu_instance env fleet = (fleet, fleet) := by
      cases fleet with
      | none => left; simp [ensure_gpu_instance, hcr]
      | some ex =>
        by_cases hr : is_instance_running env.statusResp = true
        · right; simp [ensure_gpu_instance, hr]
        · left
          simp only [ensure_gpu_instance]
          rw [if_neg hr]
          exact hcr (some ex)
    rcases hmain with h | h <;> rw [h]
    · exact ⟨rfl, Or.inl rfl⟩
    · exact ⟨rfl, Or.inr rfl⟩
  · intro env idle cfgT mode fleet h1 h2
    cases fleet with
    | none => rfl
    | some iid =>
      by_cases hidle : idle < effectiveIdleTimeout cfgT
      · simp [maybe_shutdown_gpu, hidle]
      · by_cases hmode : ((effectiveStopMode mode).toLower == "destroy") = true
        · simp only [maybe_shutdown_gpu]
          rw [if_neg hidle, if_pos hmode, hdes env.destroyResp (some iid) h2]
        · simp only [maybe_shutdown_gpu]
          rw [if_neg hidle, if_neg hmode, hstop env.stopResp (some iid) h1]

/-- Claim C8 (witness): with every provider call failing, Fleet State is
unchanged across ensure, stop, destroy and shutdown. -/
theorem C8_amended_witness :
    (ensure_gpu_instance envAllFail (some "inst1")).2 = some "inst1" ∧
    stop_instance HttpResult.netError (some "inst1") = (false, some "inst1") ∧
    destroy_instance HttpResult.netError (some "inst1") = (false, some "inst1") ∧
    maybe_shutdown_gpu envAllFail 10000 180 "stop" (some "inst1") = some "inst1" :=
  ⟨(C8_amended.1 envAllFail (some "inst1") (by decide)).1,
   C8_amended.2.1 HttpResult.netError (some "inst1") (by decide),
   C8_amended.2.2.1 HttpResult.netError (some "inst1") (by decide),
   C8_amended.2.2.2 envAllFail 10000 180 "stop" (some "inst1")
     (by decide) (by decide)⟩

/-- Claim C9: ensure_gpu_instance with a recorded instance whose status check
reports it running returns that instance and leaves Fleet State unchanged, so
two consecutive calls keep exactly the one recorded instance; and
maybe_shutdown_gpu below the effective idle threshold is a no-op on Fleet
State regardless of the provider responses. -/
theorem C9_fleet_idempotence :
    (∀ (env : ProviderEnv) (iid : String),
      is_instance_running env.statusResp = true →
      ensure_gpu_instance env (some iid) = (some iid, some iid)) ∧
    (∀ (env1 env2 : ProviderEnv) (iid : String),
      is_instance_running env1.statusResp = true →
      is_instance_running env2.statusResp = true →
      ensure_gpu_instance env2 (ensure_gpu_instance env1 (some iid)).2 =
        (some iid, some iid)) ∧
    (∀ (env : ProviderEnv) (idle cfgT : Nat) (mode : String) (fleet : Option String),
      idle < effectiveIdleTimeout cfgT →
      maybe_shutdown_gpu env idle cfgT mode fleet = fleet) := by
  have h1 : ∀ (env : ProviderEnv) (iid : String),
      is_instance_running env.statusResp = true →
      ensure_gpu_instance env (some iid) = (some iid, some iid) := by
    intro env iid h
    simp [ensure_gpu_instance, h]
  refine ⟨h1, ?_, ?_⟩
  · intro env1 env2 iid ha hb
    rw [h1 env1 iid ha]
    exact h1 env2 iid hb
  · intro env idle cfgT mode fleet h
    cases fleet with
    | none => rfl
    | some iid => simp [maybe_shutdown_gpu, h]

/-- Claim C9 (witness): with a healthy recorded instance inst1, two
consecutive ensure calls keep exactly inst1, and a shutdown check at 10 idle
seconds against the default 180-second threshold changes nothing. -/
theorem C9_witness :
    ensure_gpu_instance envHealthy (some "inst1") = (some "inst1", some "inst1") ∧
    ensure_gpu_instance envHealthy (ensure_gpu_instance envHealthy (some "inst1")).2 =
      (some "inst1", some "inst1") ∧
    maybe_shutdown_gpu envHealthy 10 0 "stop" (some "inst1") = some "inst1" :=
  ⟨C9_fleet_idempotence.1 envHealthy "inst1" (by decide),
   C9_fleet_idempotence.2.1 envHealthy envHealthy "inst1" (by decide) (by decide),
   C9_fleet_idempotence.2.2 envHealthy 10 0 "stop" (some "inst1") (by decide)⟩

/-- Claim C10: claim-dryrun writes nothing (the store after the call is the
store before it), reports exactly the id of the job a claim call would hand
out, and reports the empty no-content result exactly when no eligible job
exists. -/
theorem C10_dryrun_pure (db : List Job) :
    (claim_dryrun db).2 = db ∧
    (∀ (w : String) (t : Nat),
      (claim_dryrun db).1 = ((claim_job db w t).1).map Job.id) ∧
    ((claim_dryrun db).1 = none ↔ ∀ x ∈ db, eligible x = false) := by
  refine ⟨claim_dryrun_snd db, ?_, ?_⟩
  · intro w t
    cases hsel : selectBest (db.filter eligible) <;>
      simp [claim_dryrun, claim_job, hsel]
  · cases hsel : selectBest (db.filter eligible) with
    | none =>
      simp only [claim_dryrun, hsel]
      have hnil := selectBest_eq_none.mp hsel
      rw [List.filter_eq_nil_iff] at hnil
      constructor
      · intro _ x hx
        simpa using hnil x hx
      · intro _
        trivial
    | some j0 =>
      simp only [claim_dryrun, hsel]
      constructor
      · intro h
        cases h
      · intro hall
        have hmf := List.mem_filter.mp (selectBest_mem hsel)
        have := hall j0 hmf.1
        rw [hmf.2] at this
        cases this

/-- Claim C10 (witness): on the two-job backlog the dryrun leaves the store
unchanged and reports the id of the job a claim would return; on the empty
store it reports no content. -/
theorem C10_witness :
    (claim_dryrun backlog2).2 = backlog2 ∧
    (claim_dryrun backlog2).1 = ((claim_job backlog2 "w1" 5).1).map Job.id ∧
    ((claim_dryrun []).1 = none ↔ ∀ x ∈ ([] : List Job), eligible x = false) :=
  ⟨(C10_dryrun_pure backlog2).1, (C10_dryrun_pure backlog2).2.1 "w1" 5,
   (C10_dryrun_pure []).2.2⟩

end AIProject
